import Mathlib

/-!
Shallow embedding of the Telegram webhook handler of `truecallerjs_bot`.

Two source variants are embedded:
* `handleMessage` follows `src/index.ts` (the handler body from the point where
  the per-chat `kvValue` has been loaded).
* `handleMessageAlt` follows the later variant found in `src/unnamed/part_000`
  (the one importing `npm:truecallerjs@2.2.0` and Sentry), whose
  `awaiting_country_code` branch validates the country-code length.

External collaborators (`login`, `verifyOtp`, `search` of the truecallerjs
package) are modelled as an oracle record `Providers`; the handler records the
calls it performs, the Deno.Kv effect (`set` / `delete` / none), the produced
reply (or a thrown error, or an empty `Response`), and the fire-and-forget
`reportEvent` pings.
-/

namespace TruecallerBot

/-- The `LoginResponse` of truecallerjs, restricted to the fields the bot reads:
`status`, `message`, `parsedCountryCode`. The whole value is also stored
opaquely in the `awaiting_otp` session and passed back to `verifyOtp`. -/
structure LoginResponse where
  status : Int
  message : String
  parsedCountryCode : String
  deriving DecidableEq, Repr

/-- The response of `verifyOtp` (`Record<string, unknown>` in the source),
restricted to the fields the bot reads. JavaScript truthiness of
`otpResponse.suspended` is modelled by a `Bool`, and of
`otpResponse.installationId` / `otpResponse.message` by emptiness of the
string (`""` stands for absent/undefined/empty, all falsy). -/
structure OtpResponse where
  suspended : Bool
  status : Int
  installationId : String
  message : String
  deriving DecidableEq, Repr

/-- The `searchData` object passed to `search`. -/
structure SearchData where
  number : String
  countryCode : String
  installationId : String
  deriving DecidableEq, Repr

/-- The result of `search`: `searchResult.json()` is either normal data (from which
the bot only uses `searchResult.getName()`) or a wrapped axios error whose
`response?.data` may carry a numeric `status` and a `message` (`none` models an
absent field, whose destructuring default `""` can never be strictly equal to
the numbers 40101/42601). -/
inductive SearchResult where
  | ok (displayName : String)
  | wrappedError (status : Option Int) (message : Option String)
  deriving DecidableEq, Repr

/-- The oracle for the three external truecallerjs operations. -/
structure Providers where
  login : String → LoginResponse
  verifyOtp : String → LoginResponse → String → OtpResponse
  search : SearchData → SearchResult

/-- The `KvValue` tagged union stored per chat in Deno.Kv (src/index.ts). -/
inductive KvValue where
  | awaitingPhoneNo
  | awaitingOtp (phoneNumber : String) (loginResponse : LoginResponse)
  | awaitingInstallationId
  | awaitingCountryCode (installationId : String)
  | loggedIn (installationId : String) (countryCode : String)
  | loggedOut
  deriving DecidableEq, Repr

/-- The `status` discriminator string of a stored `KvValue`. -/
def KvValue.status : KvValue → String
  | .awaitingPhoneNo => "awaiting_phone_no"
  | .awaitingOtp _ _ => "awaiting_otp"
  | .awaitingInstallationId => "awaiting_installation_id"
  | .awaitingCountryCode _ => "awaiting_country_code"
  | .loggedIn _ _ => "logged_in"
  | .loggedOut => "logged_out"

/-- Effect of one handler run on the chat's `["users", chatId]` key:
`kv.set` with a value, `kv.delete`, or no storage operation. -/
inductive KvEffect where
  | write (v : KvValue)
  | delete
  | noChange
  deriving DecidableEq, Repr

/-- The HTTP response produced by the handler: a `sendMessage` reply (text and
whether `parse_mode: "MarkdownV2"` is set), an empty `Response`, or an error
thrown out of the handler (caught by the surrounding `onError`). -/
inductive Outcome where
  | reply (text : String) (formatted : Bool)
  | emptyResponse
  | thrownError
  deriving DecidableEq, Repr

/-- A call performed against the external provider. -/
inductive ProviderCall where
  | loginCall (phoneNumber : String)
  | verifyOtpCall (phoneNumber : String) (loginResponse : LoginResponse) (otp : String)
  | searchCall (data : SearchData)
  deriving DecidableEq, Repr

/-- Everything observable about one handler invocation. `events` are the
`reportEvent` pings, `calls` the provider operations, in program order. -/
structure HandlerResult where
  effect : KvEffect
  outcome : Outcome
  events : List String
  calls : List ProviderCall
  deriving DecidableEq, Repr

/- Reply strings of src/index.ts, verbatim. -/

def startReply : String :=
  "You need to /login to Truecaller with your existing account to use the bot.\nOnly you will be using your own account to search the numbers."

def aboutLine : String :=
  "[Source Code](https://github.com/ni554n/truecallerjs_bot) *\\|* [anissan\\.com](https://anissan.com)"

/-- The `/info` reply text, assembled as in src/index.ts lines 114-134. -/
def infoReply (kvValue : KvValue) : String :=
  let statusStr : String :=
    match kvValue with
    | .loggedIn _ _ => "Logged in"
    | _ => "Logged out"
  let installationIdLine : String :=
    match kvValue with
    | .loggedIn i _ =>
        if i = "" then ""
        else "\n[Installation ID:](https://github.com/sumithemmadi/truecallerjs#simple-example) `" ++ i ++ "`"
    | _ => ""
  "*Status:* " ++ statusStr ++ installationIdLine ++ "\n\n" ++ aboutLine

def alreadyLoggedInInstallationIdReply : String :=
  "You are already logged in.\n/logout first and then try again."

def installationIdPrompt : String :=
  "_installation\\_id_ is the final auth token generated after a successful truecaller login\\.\n\nIf you know how to retrieve it from an already logged in device, you can directly set it here without going through the login process again\\.\n\nEnter the installation ID:"

def countryCodePrompt : String :=
  "Enter your phone number\x27s 2\\-letter [ISO country code](https://en.wikipedia.org/wiki/List_of_ISO_3166_country_codes):"

def loginSuccessReply : String :=
  "Successfully logged in to Truecaller.\nYou can now search any number."

def logoutReply : String := "You\x27ve been logged out"

def alreadyLoggedInLoginReply : String :=
  "You are already logged in. /logout first and then try /login again."

def phoneNumberPrompt : String :=
  "Enter your Truecaller account phone no. in international (+19...) format:"

def phoneFormatErrorReply : String :=
  "Phone number should be in international format like +91..."

def rateLimitReply : String :=
  "You have exceeded the limit of verification attempts.\nPlease try again after some time (up to 24h)."

def otpPrompt : String := "Enter the OTP from SMS or WhatsApp:"

def suspendedReply : String :=
  "Your account has been suspended by Truecaller.\nTry to /login with another number."

def pleaseLoginReply : String :=
  "Please /login first before searching for a number"

/-- The MarkdownV2 account-error reply built around the api error message
(src/index.ts lines 323-328). -/
def accountErrorReply (apiMessage : String) : String :=
  "Truecaller responded with an account error: `" ++ apiMessage ++
    "`\\.\n\nMake sure your account is still valid by login into the official app\\.\n\nTry to /login here again after checking\\."

/-- Models `text.startsWith(prefixStr)` of the source, computed on the character
lists so that it reduces in the kernel (UTF-8 `String.startsWith` agrees with
character-level prefix testing). -/
def strStartsWith (s pre : String) : Bool := pre.data.isPrefixOf s.data

/-- The handler body of src/index.ts from the point where `kvValue` has been
loaded (lines 106-335).

The source is a linear chain of early-return `if`s. Every branch is guarded
either by an exact equality of `message.text` with one of the five handled
command strings (each starting with `/`), or by a `kvValue.status` test
together with `!message.text.startsWith("/")`; hence all branches are pairwise
disjoint and the translation groups the five command tests first and then
dispatches the non-`/` free-text branches on the state, preserving each
branch's body and the fall-through (`please /login` / search) exactly. -/
def handleMessage (p : Providers) (kvValue : KvValue) (text : String) : HandlerResult :=
  if text = "/start" then
    { effect := .noChange
      outcome := .reply startReply false
      events := if kvValue.status = "logged_out" then ["/start"] else []
      calls := [] }
  else if text = "/info" then
    { effect := .noChange, outcome := .reply (infoReply kvValue) true
      events := [], calls := [] }
  else if text = "/installation_id" then
    if kvValue.status = "logged_in" then
      { effect := .noChange, outcome := .reply alreadyLoggedInInstallationIdReply false
        events := [], calls := [] }
    else
      { effect := .write .awaitingInstallationId
        outcome := .reply installationIdPrompt true
        events := [], calls := [] }
  else if text = "/logout" then
    { effect := .delete, outcome := .reply logoutReply false
      events := ["/logout"], calls := [] }
  else if text = "/login" then
    if kvValue.status = "logged_in" then
      { effect := .noChange, outcome := .reply alreadyLoggedInLoginReply false
        events := [], calls := [] }
    else
      { effect := .write .awaitingPhoneNo
        outcome := .reply phoneNumberPrompt false
        events := [], calls := [] }
  else if strStartsWith text "/" then
    -- An unhandled command: every state-guarded branch requires
    -- `!message.text.startsWith("/")`, so control falls through to the
    -- final not-logged-in check / search (src/index.ts lines 303-335).
    searchOrPromptLogin p kvValue text
  else
    match kvValue with
    | .awaitingInstallationId =>
        { effect := .write (.awaitingCountryCode text)
          outcome := .reply countryCodePrompt true
          events := ["/installation_id"], calls := [] }
    | .awaitingCountryCode installationId =>
        -- src/index.ts lines 175-190: no validation of the entered text.
        { effect := .write (.loggedIn installationId text)
          outcome := .reply loginSuccessReply false
          events := [], calls := [] }
    | .awaitingPhoneNo =>
        if ¬ strStartsWith text "+" then
          { effect := .noChange, outcome := .reply phoneFormatErrorReply false
            events := [], calls := [] }
        else
          let responseBody := p.login text
          if responseBody.status = 6 ∨ responseBody.status = 5 then
            { effect := .noChange, outcome := .reply rateLimitReply false
              events := [], calls := [.loginCall text] }
          else if ¬ (responseBody.status = 1 ∨ responseBody.status = 9 ∨
              responseBody.message = "Sent") then
            { effect := .noChange, outcome := .reply responseBody.message false
              events := [], calls := [.loginCall text] }
          else
            { effect := .write (.awaitingOtp text responseBody)
              outcome := .reply otpPrompt false
              events := [], calls := [.loginCall text] }
    | .awaitingOtp phoneNumber loginResponse =>
        let otpResponse := p.verifyOtp phoneNumber loginResponse text
        let call := ProviderCall.verifyOtpCall phoneNumber loginResponse text
        if otpResponse.suspended then
          { effect := .noChange, outcome := .reply suspendedReply false
            events := [], calls := [call] }
        else if otpResponse.status = 11 then
          { effect := .noChange, outcome := .reply "Invalid OTP" false
            events := [], calls := [call] }
        else if otpResponse.status = 7 then
          { effect := .noChange, outcome := .reply "Retries limit exceeded" false
            events := [], calls := [call] }
        else if otpResponse.installationId = "" then
          { effect := .noChange
            outcome := .reply
              (if otpResponse.message = "" then "Unknown error. Try again."
               else otpResponse.message) false
            events := [], calls := [call] }
        else
          { effect := .write
              (.loggedIn otpResponse.installationId loginResponse.parsedCountryCode)
            outcome := .reply loginSuccessReply false
            events := ["/login"], calls := [call] }
    | _ => searchOrPromptLogin p kvValue text
where
  /-- Lines 303-335 of src/index.ts: the final not-logged-in guard and the
  search path with its wrapped-error handling. -/
  searchOrPromptLogin (p : Providers) (kvValue : KvValue) (text : String) :
      HandlerResult :=
    match kvValue with
    | .loggedIn installationId countryCode =>
        -- `searchData` of the source, inlined:
        -- { number: text, countryCode, installationId }
        match p.search ⟨text, countryCode, installationId⟩ with
        | .ok displayName =>
            { effect := .noChange, outcome := .reply displayName false
              events := ["/search"]
              calls := [.searchCall ⟨text, countryCode, installationId⟩] }
        | .wrappedError status message =>
            if status = some 40101 ∨ status = some 42601 then
              { effect := .noChange
                outcome := .reply (accountErrorReply (message.getD "")) true
                events := []
                calls := [.searchCall ⟨text, countryCode, installationId⟩] }
            else
              { effect := .noChange, outcome := .thrownError
                events := []
                calls := [.searchCall ⟨text, countryCode, installationId⟩] }
    | _ =>
        { effect := .noChange, outcome := .reply pleaseLoginReply false
          events := [], calls := [] }

/- Reply strings that differ in the src/unnamed/part_000 variant. -/

def altStartReply : String :=
  "You need to /login to Truecaller with your existing non-EU account to use the bot.\nOnly you will be using your own account to search the numbers."

def altPhoneNumberPrompt : String :=
  "Enter your (non-EU) Truecaller account phone number in international (+19...) format:"

def altCountryCodeError : String :=
  "Invalid country code. It should be a 2-letter ISO code like \x27IN\x27 for India, \x27US\x27 for the USA, etc."

/-- The handler body of the later variant in src/unnamed/part_000 (lines
464-716 of that file), from the point where `kvValue` has been loaded. It
differs from `handleMessage` in the `/start` and `/login` wording, in placing
the `/login` flow before the `/installation_id` flow (the branches stay
pairwise disjoint, as in `handleMessage`), and in validating
`countryCode.length !== 2` in the `awaiting_country_code` branch. -/
def handleMessageAlt (p : Providers) (kvValue : KvValue) (text : String) : HandlerResult :=
  if text = "/start" then
    { effect := .noChange
      outcome := .reply altStartReply false
      events := if kvValue.status = "logged_out" then ["/start"] else []
      calls := [] }
  else if text = "/info" then
    { effect := .noChange, outcome := .reply (infoReply kvValue) true
      events := [], calls := [] }
  else if text = "/login" then
    if kvValue.status = "logged_in" then
      { effect := .noChange, outcome := .reply alreadyLoggedInLoginReply false
        events := [], calls := [] }
    else
      { effect := .write .awaitingPhoneNo
        outcome := .reply altPhoneNumberPrompt false
        events := [], calls := [] }
  else if text = "/installation_id" then
    if kvValue.status = "logged_in" then
      { effect := .noChange, outcome := .reply alreadyLoggedInInstallationIdReply false
        events := [], calls := [] }
    else
      { effect := .write .awaitingInstallationId
        outcome := .reply installationIdPrompt true
        events := [], calls := [] }
  else if text = "/logout" then
    { effect := .delete, outcome := .reply logoutReply false
      events := ["/logout"], calls := [] }
  else if strStartsWith text "/" then
    searchOrPromptLoginAlt p kvValue text
  else
    match kvValue with
    | .awaitingPhoneNo =>
        if ¬ strStartsWith text "+" then
          { effect := .noChange, outcome := .reply phoneFormatErrorReply false
            events := [], calls := [] }
        else
          let responseBody := p.login text
          if responseBody.status = 6 ∨ responseBody.status = 5 then
            { effect := .noChange, outcome := .reply rateLimitReply false
              events := [], calls := [.loginCall text] }
          else if ¬ (responseBody.status = 1 ∨ responseBody.status = 9 ∨
              responseBody.message = "Sent") then
            { effect := .noChange, outcome := .reply responseBody.message false
              events := [], calls := [.loginCall text] }
          else
            { effect := .write (.awaitingOtp text responseBody)
              outcome := .reply otpPrompt false
              events := [], calls := [.loginCall text] }
    | .awaitingOtp phoneNumber loginResponse =>
        let otpResponse := p.verifyOtp phoneNumber loginResponse text
        let call := ProviderCall.verifyOtpCall phoneNumber loginResponse text
        if otpResponse.suspended then
          { effect := .noChange, outcome := .reply suspendedReply false
            events := [], calls := [call] }
        else if otpResponse.status = 11 then
          { effect := .noChange, outcome := .reply "Invalid OTP" false
            events := [], calls := [call] }
        else if otpResponse.status = 7 then
          { effect := .noChange, outcome := .reply "Retries limit exceeded" false
            events := [], calls := [call] }
        else if otpResponse.installationId = "" then
          { effect := .noChange
            outcome := .reply
              (if otpResponse.message = "" then "Unknown error. Try again."
               else otpResponse.message) false
            events := [], calls := [call] }
        else
          { effect := .write
              (.loggedIn otpResponse.installationId loginResponse.parsedCountryCode)
            outcome := .reply loginSuccessReply false
            events := ["/login"], calls := [call] }
    | .awaitingInstallationId =>
        { effect := .write (.awaitingCountryCode text)
          outcome := .reply countryCodePrompt true
          events := ["/installation_id"], calls := [] }
    | .awaitingCountryCode installationId =>
        -- src/unnamed/part_000 lines 649-672: the entered text is validated.
        if text.length ≠ 2 then
          { effect := .noChange, outcome := .reply altCountryCodeError false
            events := [], calls := [] }
        else
          { effect := .write (.loggedIn installationId text)
            outcome := .reply loginSuccessReply false
            events := [], calls := [] }
    | _ => searchOrPromptLoginAlt p kvValue text
where
  /-- Lines 684-716 of src/unnamed/part_000, identical to the src/index.ts
  search path. -/
  searchOrPromptLoginAlt (p : Providers) (kvValue : KvValue) (text : String) :
      HandlerResult :=
    match kvValue with
    | .loggedIn installationId countryCode =>
        -- `searchData` of the source, inlined:
        -- { number: text, countryCode, installationId }
        match p.search ⟨text, countryCode, installationId⟩ with
        | .ok displayName =>
            { effect := .noChange, outcome := .reply displayName false
              events := ["/search"]
              calls := [.searchCall ⟨text, countryCode, installationId⟩] }
        | .wrappedError status message =>
            if status = some 40101 ∨ status = some 42601 then
              { effect := .noChange
                outcome := .reply (accountErrorReply (message.getD "")) true
                events := []
                calls := [.searchCall ⟨text, countryCode, installationId⟩] }
            else
              { effect := .noChange, outcome := .thrownError
                events := []
                calls := [.searchCall ⟨text, countryCode, installationId⟩] }
    | _ =>
        { effect := .noChange, outcome := .reply pleaseLoginReply false
          events := [], calls := [] }

/-- Loading the stored record: `(await kv.get<KvValue>(chatIdKey)).value ?? \x7b status: "logged_out" \x7d` of the source. -/
def loadSession (stored : Option KvValue) : KvValue := stored.getD .loggedOut

/-- The chat's stored record after applying a handler's effect. -/
def applyEffect (stored : Option KvValue) : KvEffect → Option KvValue
  | .write v => some v
  | .delete => none
  | .noChange => stored

/-- One inbound webhook update, reduced to what the handler inspects:
a `my_chat_member` change to status `"kicked"`, or a `message` with its text
(absent message or absent/empty text both fall under `noText`, since
`!message?.text` treats `""` as falsy). -/
inductive Update where
  | memberKicked
  | noText
  | msg (text : String)
  deriving DecidableEq, Repr

/-- The webhook POST handler of src/index.ts (lines 55-336) for a single
chat's key, from parsed update to handler result. -/
def handleUpdate (p : Providers) (stored : Option KvValue) : Update → HandlerResult
  | .memberKicked =>
      { effect := .delete, outcome := .emptyResponse, events := ["/stop"], calls := [] }
  | .noText =>
      { effect := .noChange, outcome := .emptyResponse, events := [], calls := [] }
  | .msg text =>
      if text = "" then
        { effect := .noChange, outcome := .emptyResponse, events := [], calls := [] }
      else handleMessage p (loadSession stored) text


/-- A concrete oracle used by witnesses and counterexamples. -/
def stubProviders : Providers where
  login := fun _ => { status := 1, message := "Sent", parsedCountryCode := "IN" }
  verifyOtp := fun _ _ _ =>
    { suspended := false, status := 0, installationId := "", message := "" }
  search := fun _ => .ok "Jane Doe"

/-- A concrete oracle whose OTP verification succeeds, for the
`otp_success_logs_in` witness. -/
def okOtpProviders : Providers where
  login := fun _ => { status := 1, message := "Sent", parsedCountryCode := "IN" }
  verifyOtp := fun _ _ _ =>
    { suspended := false, status := 0, installationId := "inst-1", message := "" }
  search := fun _ => .ok "Jane Doe"

/-- A concrete oracle whose search wraps a 40101 account error, for the
`search_wrapped_error_handling` witness. -/
def accountErrorProviders : Providers where
  login := fun _ => { status := 1, message := "Sent", parsedCountryCode := "IN" }
  verifyOtp := fun _ _ _ =>
    { suspended := false, status := 0, installationId := "", message := "" }
  search := fun _ => .wrappedError (some 40101) (some "Unauthorized")






/-- C9: processing `/start` performs no session write or delete from any
state, always replies with the onboarding text, and pings the `/start` event
iff the loaded state is `logged_out`. -/
theorem start_no_state_change_and_event_iff_logged_out
    (p : Providers) (st : KvValue) :
    (handleMessage p st "/start").effect = .noChange ∧
    (handleMessage p st "/start").outcome = .reply startReply false ∧
    (handleMessage p st "/start").calls = [] ∧
    ((handleMessage p st "/start").events = ["/start"] ↔ st = .loggedOut) ∧
    (st ≠ .loggedOut → (handleMessage p st "/start").events = []) := by
  cases st <;> simp [handleMessage, KvValue.status]

/-- Witness for `start_no_state_change_and_event_iff_logged_out` at the
concrete state `loggedIn "I" "IN"`. -/
theorem start_no_state_change_witness :
    (handleMessage stubProviders (.loggedIn "I" "IN") "/start").events = [] :=
  (start_no_state_change_and_event_iff_logged_out stubProviders
    (.loggedIn "I" "IN")).2.2.2.2 (by decide)

/-- C3: from every prior stored record (any of the six states or an absent
record), a `/logout` message deletes the stored session -- the record is
absent afterwards -- and replies with the logout confirmation. -/
theorem logout_always_deletes_session (p : Providers) (stored : Option KvValue) :
    (handleUpdate p stored (.msg "/logout")).effect = .delete ∧
    applyEffect stored (handleUpdate p stored (.msg "/logout")).effect = none ∧
    (handleUpdate p stored (.msg "/logout")).outcome = .reply logoutReply false := by
  cases stored with
  | none => simp [handleUpdate, loadSession, handleMessage, applyEffect]
  | some v =>
      cases v <;>
        simp [handleUpdate, loadSession, handleMessage, applyEffect, KvValue.status]

/-- C5: `/login` from any state whose status is not `logged_in` writes
`awaiting_phone_no` and prompts for a phone number; from `logged_in` it
replies "already logged in" with no storage operation. -/
theorem login_prompts_or_rejects (p : Providers) (st : KvValue) :
    (st.status ≠ "logged_in" →
      handleMessage p st "/login" =
        { effect := .write .awaitingPhoneNo
          outcome := .reply phoneNumberPrompt false
          events := [], calls := [] }) ∧
    (∀ i c, handleMessage p (.loggedIn i c) "/login" =
      { effect := .noChange, outcome := .reply alreadyLoggedInLoginReply false
        events := [], calls := [] }) := by
  constructor
  · intro h; cases st <;> simp_all [handleMessage, KvValue.status]
  · intro i c; simp [handleMessage, KvValue.status]

/-- Witness for `login_prompts_or_rejects` at the concrete state
`loggedOut`. -/
theorem login_prompts_witness :
    handleMessage stubProviders .loggedOut "/login" =
      { effect := .write .awaitingPhoneNo
        outcome := .reply phoneNumberPrompt false
        events := [], calls := [] } :=
  (login_prompts_or_rejects stubProviders .loggedOut).1 (by decide)

/-- C6: a chat without a stored record loads as `logged_out` and is handled
exactly as a stored `logged_out` record; and every storable value carries
exactly one of the six status tags. -/
theorem absent_record_equals_logged_out :
    loadSession none = KvValue.loggedOut ∧
    (∀ p t, handleUpdate p none (.msg t) = handleUpdate p (some .loggedOut) (.msg t)) ∧
    (∀ v : KvValue,
      (["awaiting_phone_no", "awaiting_otp", "awaiting_installation_id",
        "awaiting_country_code", "logged_in", "logged_out"].count v.status) = 1) := by
  refine ⟨rfl, fun p t => rfl, fun v => ?_⟩
  cases v <;> rfl

/-- A text that does not start with `/` differs from every string that does
start with `/`. -/
theorem ne_command_of_no_slash {t c : String}
    (h : strStartsWith t "/" = false) (hc : strStartsWith c "/" = true) :
    t ≠ c := by
  rintro rfl; rw [h] at hc; exact Bool.noConfusion hc

/-- C4: in `awaiting_phone_no`, a non-command text not starting with `+`
leaves the storage untouched, replies with the phone-number format error, and
performs no provider call at all. -/
theorem phone_format_error_frame (p : Providers) (t : String)
    (hslash : strStartsWith t "/" = false)
    (hplus : strStartsWith t "+" = false) :
    handleMessage p .awaitingPhoneNo t =
      { effect := .noChange, outcome := .reply phoneFormatErrorReply false
        events := [], calls := [] } := by
  have h1 := ne_command_of_no_slash hslash (c := "/start") (by decide)
  have h2 := ne_command_of_no_slash hslash (c := "/info") (by decide)
  have h3 := ne_command_of_no_slash hslash (c := "/installation_id") (by decide)
  have h4 := ne_command_of_no_slash hslash (c := "/logout") (by decide)
  have h5 := ne_command_of_no_slash hslash (c := "/login") (by decide)
  simp [handleMessage, h1, h2, h3, h4, h5, hslash, hplus]

/-- Witness for `phone_format_error_frame` at the concrete text `hello`. -/
theorem phone_format_error_witness :
    handleMessage stubProviders .awaitingPhoneNo "hello" =
      { effect := .noChange, outcome := .reply phoneFormatErrorReply false
        events := [], calls := [] } :=
  phone_format_error_frame stubProviders "hello" (by decide) (by decide)

/-- C2: in `awaiting_otp`, a non-command text whose verification response is
not suspended, has status neither 11 nor 7 and carries a non-empty
`installationId` stores `logged_in` with the provider-returned installation id
and the `parsedCountryCode` of the stored login token, pings `/login`, and
replies with the login-success message. -/
theorem otp_success_logs_in (p : Providers) (phone otp : String)
    (lr : LoginResponse)
    (hslash : strStartsWith otp "/" = false)
    (hsus : (p.verifyOtp phone lr otp).suspended = false)
    (h11 : (p.verifyOtp phone lr otp).status ≠ 11)
    (h7 : (p.verifyOtp phone lr otp).status ≠ 7)
    (hid : (p.verifyOtp phone lr otp).installationId ≠ "") :
    handleMessage p (.awaitingOtp phone lr) otp =
      { effect := .write (.loggedIn (p.verifyOtp phone lr otp).installationId
          lr.parsedCountryCode)
        outcome := .reply loginSuccessReply false
        events := ["/login"]
        calls := [.verifyOtpCall phone lr otp] } := by
  have h1 := ne_command_of_no_slash hslash (c := "/start") (by decide)
  have h2 := ne_command_of_no_slash hslash (c := "/info") (by decide)
  have h3 := ne_command_of_no_slash hslash (c := "/installation_id") (by decide)
  have h4 := ne_command_of_no_slash hslash (c := "/logout") (by decide)
  have h5 := ne_command_of_no_slash hslash (c := "/login") (by decide)
  simp [handleMessage, h1, h2, h3, h4, h5, hslash, hsus, h11, h7, hid]


/-- Witness for `otp_success_logs_in` with a concrete succeeding oracle. -/
theorem otp_success_witness :
    handleMessage okOtpProviders
      (.awaitingOtp "+15551234567" { status := 1, message := "Sent", parsedCountryCode := "IN" })
      "123456" =
      { effect := .write (.loggedIn "inst-1" "IN")
        outcome := .reply loginSuccessReply false
        events := ["/login"]
        calls := [.verifyOtpCall "+15551234567"
          { status := 1, message := "Sent", parsedCountryCode := "IN" } "123456"] } :=
  otp_success_logs_in okOtpProviders "+15551234567" "123456"
    { status := 1, message := "Sent", parsedCountryCode := "IN" }
    (by decide) (by decide) (by decide) (by decide) (by decide)

/-- C7: in `logged_in`, when the search result wraps an error, status 40101 or
42601 yields the formatted account-error reply with no storage operation; any
other wrapped error is rethrown out of the handler (also with no storage
operation). -/
theorem search_wrapped_error_handling (p : Providers) (i c t : String)
    (h1 : t ≠ "/start") (h2 : t ≠ "/info") (h3 : t ≠ "/installation_id")
    (h4 : t ≠ "/logout") (h5 : t ≠ "/login")
    (status : Option Int) (message : Option String)
    (hres : p.search { number := t, countryCode := c, installationId := i } =
      .wrappedError status message) :
    ((status = some 40101 ∨ status = some 42601) →
      handleMessage p (.loggedIn i c) t =
        { effect := .noChange
          outcome := .reply (accountErrorReply (message.getD "")) true
          events := []
          calls := [.searchCall { number := t, countryCode := c, installationId := i }] }) ∧
    (¬ (status = some 40101 ∨ status = some 42601) →
      handleMessage p (.loggedIn i c) t =
        { effect := .noChange, outcome := .thrownError, events := []
          calls := [.searchCall { number := t, countryCode := c, installationId := i }] }) := by
  have key : handleMessage p (.loggedIn i c) t =
      handleMessage.searchOrPromptLogin p (.loggedIn i c) t := by
    simp [handleMessage, h1, h2, h3, h4, h5, KvValue.status]
  constructor <;> intro hcase <;> rw [key] <;>
    simp [handleMessage.searchOrPromptLogin, hres, hcase]


/-- Witness for `search_wrapped_error_handling` with a concrete 40101
wrapped error. -/
theorem search_wrapped_error_witness :
    handleMessage accountErrorProviders (.loggedIn "I" "IN") "+919999999999" =
      { effect := .noChange
        outcome := .reply (accountErrorReply "Unauthorized") true
        events := []
        calls := [.searchCall
          { number := "+919999999999", countryCode := "IN", installationId := "I" }] } :=
  (search_wrapped_error_handling accountErrorProviders "I" "IN" "+919999999999"
    (by decide) (by decide) (by decide) (by decide) (by decide)
    (some 40101) (some "Unauthorized") rfl).1 (Or.inl rfl)

/-- C8: the handler is a pure function of the loaded state, the message text
and the provider responses: two oracles that agree pointwise on all three
operations produce identical results (storage effect, outcome, events and
calls) on every state and text. -/
theorem handler_deterministic (p q : Providers) (st : KvValue) (t : String)
    (hl : ∀ x, p.login x = q.login x)
    (hv : ∀ x y z, p.verifyOtp x y z = q.verifyOtp x y z)
    (hs : ∀ d, p.search d = q.search d) :
    handleMessage p st t = handleMessage q st t := by
  obtain ⟨pl, pv, ps⟩ := p
  obtain ⟨ql, qv, qs⟩ := q
  have el : pl = ql := funext hl
  have ev : pv = qv := funext fun x => funext fun y => funext fun z => hv x y z
  have es : ps = qs := funext hs
  subst el; subst ev; subst es; rfl

/-- Witness for `handler_deterministic`: the stub oracle agrees with itself,
so the two runs coincide on a concrete state and text. -/
theorem handler_deterministic_witness :
    handleMessage stubProviders .loggedOut "hello" =
      handleMessage stubProviders .loggedOut "hello" :=
  handler_deterministic stubProviders stubProviders .loggedOut "hello"
    (fun _ => rfl) (fun _ _ _ => rfl) (fun _ => rfl)

/-- Helper: the search fall-through never pings `/stop`. -/
theorem searchOrPromptLogin_no_stop_event (p : Providers) (st : KvValue)
    (t : String) :
    "/stop" ∉ (handleMessage.searchOrPromptLogin p st t).events := by
  unfold handleMessage.searchOrPromptLogin
  repeat' split
  all_goals simp

/-- Helper: no message-processing branch pings `/stop`. -/
theorem handleMessage_no_stop_event (p : Providers) (st : KvValue) (t : String) :
    "/stop" ∉ (handleMessage p st t).events := by
  rcases eq_or_ne t "/start" with rfl | h1
  · simp [handleMessage]
  rcases eq_or_ne t "/info" with rfl | h2
  · simp [handleMessage]
  rcases eq_or_ne t "/installation_id" with rfl | h3
  · simp [handleMessage]
    all_goals (split <;> simp)
  rcases eq_or_ne t "/logout" with rfl | h4
  · simp [handleMessage]
  rcases eq_or_ne t "/login" with rfl | h5
  · simp [handleMessage]
    all_goals (split <;> simp)
  by_cases hsl : strStartsWith t "/" = true
  · have key : handleMessage p st t = handleMessage.searchOrPromptLogin p st t := by
      simp [handleMessage, h1, h2, h3, h4, h5, hsl]
    rw [key]
    exact searchOrPromptLogin_no_stop_event p st t
  · rw [Bool.not_eq_true] at hsl
    cases st with
    | awaitingPhoneNo =>
        simp [handleMessage, h1, h2, h3, h4, h5, hsl]
        all_goals (repeat' split) <;> simp
    | awaitingOtp phone lr =>
        simp [handleMessage, h1, h2, h3, h4, h5, hsl]
        all_goals (repeat' split) <;> simp
    | awaitingInstallationId => simp [handleMessage, h1, h2, h3, h4, h5, hsl]
    | awaitingCountryCode i => simp [handleMessage, h1, h2, h3, h4, h5, hsl]
    | loggedIn i c =>
        have key : handleMessage p (.loggedIn i c) t =
            handleMessage.searchOrPromptLogin p (.loggedIn i c) t := by
          simp [handleMessage, h1, h2, h3, h4, h5, hsl]
        rw [key]
        exact searchOrPromptLogin_no_stop_event p _ t
    | loggedOut =>
        have key : handleMessage p .loggedOut t =
            handleMessage.searchOrPromptLogin p .loggedOut t := by
          simp [handleMessage, h1, h2, h3, h4, h5, hsl]
        rw [key]
        exact searchOrPromptLogin_no_stop_event p _ t

/-- C10: `/stop` and `/search` have no dispatch branch of their own: in
`logged_in` either text falls through to the search path and is sent verbatim
to the provider as the number to look up; and the `/stop` event is pinged by a
kicked chat-membership change but never by processing any message text. -/
theorem stop_and_search_are_not_dispatched (p : Providers) (i c : String) :
    ((handleMessage p (.loggedIn i c) "/stop").calls =
      [.searchCall { number := "/stop", countryCode := c, installationId := i }]) ∧
    ((handleMessage p (.loggedIn i c) "/search").calls =
      [.searchCall { number := "/search", countryCode := c, installationId := i }]) ∧
    (∀ st t, "/stop" ∉ (handleMessage p st t).events) ∧
    (∀ stored, (handleUpdate p stored .memberKicked).events = ["/stop"]) := by
  have callsKey : ∀ t : String, strStartsWith t "/" = true →
      t ≠ "/start" → t ≠ "/info" → t ≠ "/installation_id" → t ≠ "/logout" →
      t ≠ "/login" →
      (handleMessage p (.loggedIn i c) t).calls =
        [.searchCall { number := t, countryCode := c, installationId := i }] := by
    intro t hsl h1 h2 h3 h4 h5
    have key : handleMessage p (.loggedIn i c) t =
        handleMessage.searchOrPromptLogin p (.loggedIn i c) t := by
      simp [handleMessage, h1, h2, h3, h4, h5, hsl]
    rw [key]
    unfold handleMessage.searchOrPromptLogin
    repeat' split
    all_goals simp_all
  exact ⟨callsKey "/stop" (by decide) (by decide) (by decide) (by decide)
      (by decide) (by decide),
    callsKey "/search" (by decide) (by decide) (by decide) (by decide)
      (by decide) (by decide),
    fun st t => handleMessage_no_stop_event p st t,
    fun stored => rfl⟩

/-- C1, counterexample: in src/index.ts the `awaiting_country_code` branch
does not validate the length of the entered text. On the three-character input
`ABC` the claimed behaviour (reply with a format error and keep the state,
i.e. no storage change) is false: the handler writes a `logged_in` record. -/
theorem country_code_no_validation_counterexample :
    ¬ (("ABC" : String).length ≠ 2 →
      (handleMessage stubProviders (.awaitingCountryCode "I") "ABC").effect =
        .noChange) := by decide

/-- C1, amended: src/index.ts never validates the country code -- every
non-command text in `awaiting_country_code` becomes the stored country code of
a `logged_in` record with the success reply -- while the src/unnamed/part_000
variant validates: text of length ≠ 2 replies with the format error and keeps
the state, and text of length 2 transitions to `logged_in`. -/
theorem country_code_validation_by_variant (p : Providers) (i t : String)
    (hslash : strStartsWith t "/" = false) :
    (handleMessage p (.awaitingCountryCode i) t =
      { effect := .write (.loggedIn i t)
        outcome := .reply loginSuccessReply false
        events := [], calls := [] }) ∧
    (t.length ≠ 2 →
      handleMessageAlt p (.awaitingCountryCode i) t =
        { effect := .noChange, outcome := .reply altCountryCodeError false
          events := [], calls := [] }) ∧
    (t.length = 2 →
      handleMessageAlt p (.awaitingCountryCode i) t =
        { effect := .write (.loggedIn i t)
          outcome := .reply loginSuccessReply false
          events := [], calls := [] }) := by
  have h1 := ne_command_of_no_slash hslash (c := "/start") (by decide)
  have h2 := ne_command_of_no_slash hslash (c := "/info") (by decide)
  have h3 := ne_command_of_no_slash hslash (c := "/installation_id") (by decide)
  have h4 := ne_command_of_no_slash hslash (c := "/logout") (by decide)
  have h5 := ne_command_of_no_slash hslash (c := "/login") (by decide)
  refine ⟨?_, fun hlen => ?_, fun hlen => ?_⟩
  · simp [handleMessage, h1, h2, h3, h4, h5, hslash]
  · simp [handleMessageAlt, h1, h2, h3, h4, h5, hslash, hlen]
  · simp [handleMessageAlt, h1, h2, h3, h4, h5, hslash, hlen]

/-- Witness for `country_code_validation_by_variant` at the concrete
non-command texts handled by both variants. -/
theorem country_code_validation_witness :
    handleMessageAlt stubProviders (.awaitingCountryCode "I") "ABC" =
      { effect := .noChange, outcome := .reply altCountryCodeError false
        events := [], calls := [] } :=
  (country_code_validation_by_variant stubProviders "I" "ABC"
    (by decide)).2.1 (by decide)

end TruecallerBot
